import Mathlib

/-!
A shallow embedding of the QR-authentication session lifecycle of the
auto-dm server, together with proofs about its operations.

Time is modelled as a natural number of seconds; the Go code's
`time.Now().After(t)` test becomes a strict `t < now` comparison.
The SQLite `senders` table is a list of `Sender` records keyed by phone,
the in-memory QR session table is an association list keyed by token,
and the `whatsmeow` client handle is reduced to the two observations the
code makes of it (`Store.ID` and `IsConnected`).

`QRManager.updateSessionStatus` begins with `session.mu.Lock()`. Three of
its call sites already hold `session.mu` on the same goroutine — the
lazy-expiry branch of `GetQRCode` (under the `RLock` taken at
message_handler.go:333) and the `timeout` and `success` cases of the
`generateQRCode` event loop (under the `Lock` taken at line 272) — and
Go's `sync.RWMutex` is not reentrant, so those paths deterministically
self-deadlock before `updateSessionStatus` performs any write. The
embedding models each such operation as ending in an explicit `deadlock`
outcome whose state holds exactly the mutations committed before the
wedge point; only the completing paths (connect failure, sweep, create,
supervisor, send) ever reach the senders table.
-/

/-- One row of the `senders` table (`models.Sender`): a NULL `device_id`
is read back as the empty string by `Database.GetSender`. -/
structure Sender where
  phone : String
  deviceID : String
  status : String
  createdAt : Nat
  authenticatedAt : Option Nat
  invalidatedAt : Option Nat
  deriving DecidableEq

/-- `Database.GetSender`: `SELECT ... FROM senders WHERE phone = ?`. -/
def GetSender (senders : List Sender) (phone : String) : Option Sender :=
  senders.find? (fun s => s.phone == phone)

/-- `Database.SenderExists`: the row-existence probe. -/
def SenderExists (senders : List Sender) (phone : String) : Bool :=
  (GetSender senders phone).isSome

/-- `Database.CreateSender`: `INSERT INTO senders (phone, status) VALUES (?, 'pending')`;
`created_at` defaults to the current timestamp, `device_id` to NULL. -/
def CreateSender (senders : List Sender) (phone : String) (now : Nat) : List Sender :=
  ⟨phone, "", "pending", now, none, none⟩ :: senders

/-- `Database.UpdateSenderStatus`: updates the status of the matching row;
the `authenticated` and `invalidated` statuses additionally stamp their
timestamp column, every other status string only rewrites `status`. -/
def UpdateSenderStatus (senders : List Sender) (phone status : String) (now : Nat) :
    List Sender :=
  senders.map (fun s =>
    if s.phone == phone then
      if status == "authenticated" then
        { s with status := status, authenticatedAt := some now }
      else if status == "invalidated" then
        { s with status := status, invalidatedAt := some now }
      else
        { s with status := status }
    else s)

/-- `Database.UpdateSenderDeviceID`: `UPDATE senders SET device_id = ? WHERE phone = ?`. -/
def UpdateSenderDeviceID (senders : List Sender) (phone deviceID : String) : List Sender :=
  senders.map (fun s => if s.phone == phone then { s with deviceID := deviceID } else s)

/-- The two observations the core makes of a `whatsmeow.Client`:
its persisted device identity (`Store.ID`, `nil` before pairing) and its
connection state (`IsConnected`). -/
structure WMClient where
  storeID : Option String
  connected : Bool
  deriving DecidableEq

/-- `whatsapp.QRCodeSession` (the per-token ephemeral session record). -/
structure QRCodeSession where
  phone : String
  token : String
  qrCode : String
  expiresAt : Nat
  client : WMClient
  status : String
  deriving DecidableEq

/-- The mutable state owned by `whatsapp.QRManager` plus the `senders`
table it writes through its `Database` interface: `sessions` is the
token-keyed map (association list, first match wins, matching the Go map
since tokens are fresh). -/
structure QMState where
  sessions : List (String × QRCodeSession)
  senders : List Sender
  deriving DecidableEq

/-- Lookup of `qm.sessions[token]`. -/
def lookupSession (sessions : List (String × QRCodeSession)) (token : String) :
    Option QRCodeSession :=
  (sessions.find? (fun ts => ts.1 == token)).map (·.2)

/-- In-place mutation of the status field of the session stored under `token`
(the Go code mutates the session through its pointer). -/
def setSessionStatus (sessions : List (String × QRCodeSession)) (token status : String) :
    List (String × QRCodeSession) :=
  sessions.map (fun ts => if ts.1 == token then (ts.1, { ts.2 with status := status }) else ts)

/-- `QRManager.updateSessionStatus`: writes the status into the session and
propagates the very same status string to the senders table. -/
def updateSessionStatus (st : QMState) (token phone status : String) (now : Nat) : QMState :=
  { sessions := setSessionStatus st.sessions token status,
    senders := UpdateSenderStatus st.senders phone status now }

/-- The two error strings `GetQRCode` builds with `fmt.Errorf` and the HTTP
handler dispatches on. Only the not-found one is ever returned: the
expired-session string sits after the deadlocking `updateSessionStatus`
call and is unreachable. -/
inductive QRGetError
  | notFound
  | expired
  deriving DecidableEq

def QRGetError.message : QRGetError → String
  | .notFound => "session not found"
  | .expired => "QR code session expired"

/-- The outcomes of `QRManager.GetQRCode`: a live session snapshot, the
not-found failure, or the self-deadlock of the lazy-expiry branch. -/
inductive GetQRResult
  | ok (session : QRCodeSession)
  | notFound
  | deadlock
  deriving DecidableEq

/-- `QRManager.GetQRCode`: an unknown token fails with NotFound. For a known
session past `ExpiresAt` the code writes the in-memory status `"expired"`
(line 341) and then calls `updateSessionStatus` while this goroutine still
holds `session.mu.RLock()` (taken at line 333 with a deferred `RUnlock`);
`updateSessionStatus` opens with `session.mu.Lock()` on the same
non-reentrant mutex, so the call self-deadlocks: no value or error is
returned, and neither the senders table nor the table membership is ever
touched. The `deadlock` state holds exactly what was committed before the
wedge: the session, still in the table, marked `"expired"` in memory. -/
def GetQRCode (st : QMState) (token : String) (now : Nat) : GetQRResult × QMState :=
  match lookupSession st.sessions token with
  | none => (.notFound, st)
  | some session =>
    if session.expiresAt < now then
      (.deadlock, { st with sessions := setSessionStatus st.sessions token "expired" })
    else
      (.ok session, st)

/-- `QRManager.CleanupExpiredSessions`: every session past `ExpiresAt` is
marked expired, its sender row is set to the status string `"expired"`,
and the session is deleted from the table. -/
def CleanupExpiredSessions (st : QMState) (now : Nat) : QMState :=
  { sessions := st.sessions.filter (fun ts => !(decide (ts.2.expiresAt < now))),
    senders := st.sessions.foldl
      (fun snds ts =>
        if ts.2.expiresAt < now then UpdateSenderStatus snds ts.2.phone "expired" now
        else snds)
      st.senders }

/-- The failure `CreateQRCodeSession` reports for an authenticated phone,
with the exact `fmt.Errorf` string. -/
inductive CreateError
  | alreadyAuthenticated (phone : String)
  deriving DecidableEq

def CreateError.message : CreateError → String
  | .alreadyAuthenticated phone => "sender " ++ phone ++ " is already authenticated"

/-- `QRManager.removeSessionsForPhone`: deletes every table entry whose
session belongs to the given phone. -/
def removeSessionsForPhone (sessions : List (String × QRCodeSession)) (phone : String) :
    List (String × QRCodeSession) :=
  sessions.filter (fun ts => !(ts.2.phone == phone))

/-- `QRManager.CreateQRCodeSession`. The random token and the fresh
`whatsmeow` client produced by `UserStoreManager.CreateUserStore` enter as
parameters; the background `generateQRCode` goroutine is spawned after the
insert and is modelled separately by `generateQRCodeStep`. -/
def CreateQRCodeSession (st : QMState) (phone token : String) (client : WMClient)
    (expiryMinutes now : Nat) : Except CreateError (QRCodeSession × QMState) :=
  let finish : QMState → QRCodeSession × QMState := fun st1 =>
    let session : QRCodeSession :=
      { phone := phone, token := token, qrCode := "",
        expiresAt := now + expiryMinutes * 60, client := client, status := "pending" }
    (session, { st1 with sessions := (token, session) :: st1.sessions })
  match GetSender st.senders phone with
  | some sender =>
    if sender.status == "authenticated" then
      .error (.alreadyAuthenticated phone)
    else
      .ok (finish
        { sessions := removeSessionsForPhone st.sessions phone,
          senders := UpdateSenderStatus st.senders phone "pending" now })
  | none =>
    .ok (finish { st with senders := CreateSender st.senders phone now })

/-- One event of the pairing event stream (`whatsmeow` QR channel items),
with its event-kind string and, for `"code"` events, the QR payload. -/
structure WAQREvent where
  event : String
  code : String
  deriving DecidableEq

/-- The fate of one iteration of the `generateQRCode` event loop: either the
loop is still consuming events, or the goroutine has self-deadlocked inside
`updateSessionStatus` (a second `session.mu.Lock()` while the loop already
holds the lock taken at line 272) and is wedged holding the session lock,
consuming nothing further. -/
inductive BridgeOutcome
  | consuming
  | deadlock
  deriving DecidableEq

/-- One iteration of the event loop in `QRManager.generateQRCode`; the loop
body runs under `session.mu.Lock()`. On `code`, the payload and the pending
status are stored and the loop continues. On `timeout`, the in-memory status
is set to `"expired"` and the following `updateSessionStatus` call
self-deadlocks on its second `session.mu.Lock()`, so the senders table is
never written. On `success`, the in-memory status is set to
`"authenticated"` and the device identifier is persisted through
`UpdateSenderDeviceID`, after which `updateSessionStatus` self-deadlocks the
same way, so the senders-table status is never written. The session is
addressed by its token (the Go code holds the session pointer); `now` is the
instant the event is handled — the branches that would consult it for a
timestamp all wedge first, so it goes unused. -/
def generateQRCodeStep (st : QMState) (token : String) (evt : WAQREvent) (_now : Nat) :
    QMState × BridgeOutcome :=
  match lookupSession st.sessions token with
  | none => (st, .consuming)
  | some session =>
    if evt.event == "code" then
      ({ st with sessions := st.sessions.map (fun ts =>
          if ts.1 == token then (ts.1, { ts.2 with qrCode := evt.code, status := "pending" })
          else ts) }, .consuming)
    else if evt.event == "timeout" then
      ({ st with sessions := setSessionStatus st.sessions token "expired" }, .deadlock)
    else if evt.event == "success" then
      ({ sessions := setSessionStatus st.sessions token "authenticated",
         senders :=
           match session.client.storeID with
           | some id => UpdateSenderDeviceID st.senders session.phone id
           | none => st.senders }, .deadlock)
    else
      (st, .consuming)

/-- The failure path of `generateQRCode` when `Client.Connect` errors before
any event is consumed. No lock is held at this call site (line 266), so
`updateSessionStatus` completes: session status and senders-table status
both become `"expired"`. -/
def generateQRCodeConnectFail (st : QMState) (token : String) (now : Nat) : QMState :=
  match lookupSession st.sessions token with
  | none => st
  | some session => updateSessionStatus st token session.phone "expired" now

/-- Character-list prefix test (helper for the `strings.Contains` model). -/
def isPrefixL : List Char → List Char → Bool
  | [], _ => true
  | _ :: _, [] => false
  | a :: as, b :: bs => a == b && isPrefixL as bs

def containsAux (pat : List Char) : List Char → Bool
  | [] => pat.isEmpty
  | c :: rest => isPrefixL pat (c :: rest) || containsAux pat rest

/-- Go's `strings.Contains(s, pat)`. -/
def strContains (s pat : String) : Bool :=
  containsAux pat.data s.data

/-- The error dispatch of `Handler.HandleGetQRCode`: an error whose message
contains `"QR code session expired"` is rendered as HTTP 410 (Gone), every
other error as HTTP 404 (Not Found). -/
def handleGetQRCodeErrorStatus (e : QRGetError) : Nat :=
  if strContains e.message "QR code session expired" then 410 else 404

/-- The error dispatch of `Handler.HandleRegister`: an error whose message
contains `"already authenticated"` is rendered as HTTP 409 (Conflict),
every other error as HTTP 500. -/
def handleRegisterErrorStatus (e : CreateError) : Nat :=
  if strContains e.message "already authenticated" then 409 else 500

/-- The body of a `POST /send` request, after JSON decoding. -/
structure SendRequest where
  sender : String
  recipient : String
  message : String
  msgType : String
  fileName : String
  deriving DecidableEq

/-- A stored message row, reduced to the fields the send path populates. -/
structure StoredMessage where
  senderPhone : String
  recipientPhone : String
  messageType : String
  content : String
  deriving DecidableEq

/-- The outcome of `Handler.HandleSendMessage`. The several malformed-request
errors (missing fields, missing message or file name) all answer HTTP 400
and are collapsed into `invalidRequest`. -/
inductive SendResult
  | invalidRequest
  | notRegistered (phone : String)
  | notConnected (phone : String)
  | sendFailed (msg : String)
  | sent
  deriving DecidableEq

/-- The HTTP status each outcome of the send handler is written with. -/
def sendResultHTTPStatus : SendResult → Nat
  | .invalidRequest => 400
  | .notRegistered _ => 400
  | .notConnected _ => 400
  | .sendFailed _ => 500
  | .sent => 200

/-- `UserStoreManager.GetUserClient`: lookup in the phone-keyed client map. -/
def GetUserClient (clients : List (String × WMClient)) (phone : String) : Option WMClient :=
  (clients.find? (fun pc => pc.1 == phone)).map (·.2)

/-- The `request.Type == "" → "text"` defaulting in `HandleSendMessage`. -/
def effectiveType (req : SendRequest) : String :=
  if req.msgType == "" then "text" else req.msgType

/-- `Handler.HandleSendMessage` (after JSON decoding): field validation,
then the registered/connected checks against the user-client map, then the
send itself; a sent message is recorded to the message store afterwards.
The protocol-level send and the shared-folder `os.Stat` probe are external
collaborators: the send succeeds for a connected client, and file existence
enters as the `fileExists` oracle. -/
def HandleSendMessage (clients : List (String × WMClient)) (fileExists : String → Bool)
    (req : SendRequest) (msgs : List StoredMessage) : SendResult × List StoredMessage :=
  if req.sender == "" || req.recipient == "" then (.invalidRequest, msgs)
  else if effectiveType req == "text" && req.message == "" then (.invalidRequest, msgs)
  else if effectiveType req == "file" && req.fileName == "" then (.invalidRequest, msgs)
  else
    match GetUserClient clients req.sender with
    | none => (.notRegistered req.sender, msgs)
    | some client =>
      if !client.connected then (.notConnected req.sender, msgs)
      else if effectiveType req == "file" then
        if !(fileExists req.fileName) then (.sendFailed ("file not found: " ++ req.fileName), msgs)
        else (.sent, msgs ++ [⟨req.sender, req.recipient, "file", req.fileName⟩])
      else
        (.sent, msgs ++ [⟨req.sender, req.recipient, "text", req.message⟩])

/-- `ClientManager.checkConnections` (one Connection Supervisor tick): every
client in the user-client map that is not connected has its sender row set
to `invalidated` (which also rewrites `invalidated_at` to the tick time). -/
def checkConnections (clients : List (String × WMClient)) (senders : List Sender)
    (now : Nat) : List Sender :=
  clients.foldl
    (fun snds pc =>
      if pc.2.connected then snds else UpdateSenderStatus snds pc.1 "invalidated" now)
    senders

/-- `config.Config`: the full set of operator-settable values. -/
structure Config where
  mssqlServer : String
  mssqlDatabase : String
  mssqlUsername : String
  mssqlPassword : String
  apiPort : String
  connectionCheckInterval : Nat
  deriving DecidableEq

/-- The QR-session TTL wired into the server in `main.go`
(`qrExpiryMinutes := 10`): a constant, taken from no configuration field. -/
def mainQRExpiryMinutes : Config → Nat := fun _ => 10

/-- The sweep period of `QRManager.StartCleanup`
(`time.NewTicker(5 * time.Minute)`): a constant. -/
def startCleanupIntervalMinutes : Config → Nat := fun _ => 5

/-- The supervisor tick of `ClientManager.MonitorConnections`
(`time.NewTicker(1 * time.Minute)`): a constant; in particular the
`ConnectionCheckInterval` configuration field is never consulted. -/
def monitorConnectionsTickMinutes : Config → Nat := fun _ => 1

/-- The number of table entries owned by a phone. -/
def phoneCount (sessions : List (String × QRCodeSession)) (p : String) : Nat :=
  (sessions.filter (fun ts => ts.2.phone == p)).length

/-- The senders-table effect of one sweep (the fold inside
`CleanupExpiredSessions`). -/
def sweepSenders (sessions : List (String × QRCodeSession)) (now : Nat)
    (snds : List Sender) : List Sender :=
  sessions.foldl
    (fun acc ts =>
      if ts.2.expiresAt < now then UpdateSenderStatus acc ts.2.phone "expired" now
      else acc)
    snds

/-- The projection of a `Sender` row onto every column except
`invalidated_at` (used to state what a supervisor tick can change). -/
def senderCore (s : Sender) : String × String × String × Nat × Option Nat :=
  (s.phone, s.deviceID, s.status, s.createdAt, s.authenticatedAt)

/-- The effect of one full pass of `checkConnections` on a single sender row
(used to reason about the fold as an elementwise map). -/
def tickElem (clients : List (String × WMClient)) (now : Nat) (s : Sender) : Sender :=
  clients.foldl
    (fun acc pc =>
      if pc.2.connected then acc
      else if acc.phone == pc.1 then
        { acc with status := "invalidated", invalidatedAt := some now }
      else acc)
    s

/-- The Session Table invariant: every phone owns at most one live session,
and every live session's phone has a row in the senders table. -/
def SessionTableInv (st : QMState) : Prop :=
  (∀ p, phoneCount st.sessions p ≤ 1) ∧
  (∀ ts ∈ st.sessions, SenderExists st.senders ts.2.phone = true)

/-! ### Helper lemmas -/

theorem getSender_map (snds : List Sender) (p : String) (f : Sender → Sender)
    (hf : ∀ s, (f s).phone = s.phone) :
    GetSender (snds.map f) p = (GetSender snds p).map f := by
  induction snds with
  | nil => rfl
  | cons a l ih =>
    unfold GetSender at *
    rw [List.map_cons, List.find?_cons, List.find?_cons, hf a]
    cases ha : a.phone == p
    · simpa using ih
    · rfl

theorem getSender_phone (snds : List Sender) (p : String) (s : Sender)
    (h : GetSender snds p = some s) : s.phone = p := by
  have := List.find?_some h
  simpa using this

theorem getSender_updateStatus_ne (snds : List Sender) (p q status : String) (now : Nat)
    (hne : p ≠ q) :
    GetSender (UpdateSenderStatus snds q status now) p = GetSender snds p := by
  unfold UpdateSenderStatus
  rw [getSender_map]
  · cases h : GetSender snds p with
    | none => rfl
    | some s =>
      have hp := getSender_phone snds p s h
      have hne' : ¬(s.phone = q) := by
        rw [hp]; exact hne
      simp [hne']
  · intro s
    by_cases h : (s.phone == q) = true <;>
      by_cases h2 : (status == "authenticated") = true <;>
        by_cases h3 : (status == "invalidated") = true <;>
          simp_all

theorem getSender_updateDeviceID_self (snds : List Sender) (p d : String) (s : Sender)
    (h : GetSender snds p = some s) :
    GetSender (UpdateSenderDeviceID snds p d) p = some { s with deviceID := d } := by
  unfold UpdateSenderDeviceID
  rw [getSender_map]
  · have hp := getSender_phone snds p s h
    rw [h]
    simp [hp]
  · intro s
    by_cases h : (s.phone == p) = true <;> simp_all

theorem getSender_updateStatus_expired_self (snds : List Sender) (p : String) (now : Nat)
    (s : Sender) (h : GetSender snds p = some s) :
    GetSender (UpdateSenderStatus snds p "expired" now) p = some { s with status := "expired" } := by
  unfold UpdateSenderStatus
  rw [getSender_map]
  · have hp := getSender_phone snds p s h
    rw [h]
    simp [hp]
  · intro s
    by_cases h : (s.phone == p) = true <;> simp_all

theorem getSender_updateStatus_pending_self (snds : List Sender) (p : String) (now : Nat)
    (s : Sender) (h : GetSender snds p = some s) :
    GetSender (UpdateSenderStatus snds p "pending" now) p = some { s with status := "pending" } := by
  unfold UpdateSenderStatus
  rw [getSender_map]
  · have hp := getSender_phone snds p s h
    rw [h]
    simp [hp]
  · intro s
    by_cases h : (s.phone == p) = true <;> simp_all

theorem getSender_updateStatus_auth_self (snds : List Sender) (p : String) (now : Nat)
    (s : Sender) (h : GetSender snds p = some s) :
    GetSender (UpdateSenderStatus snds p "authenticated" now) p
      = some { s with status := "authenticated", authenticatedAt := some now } := by
  unfold UpdateSenderStatus
  rw [getSender_map]
  · have hp := getSender_phone snds p s h
    rw [h]
    simp [hp]
  · intro s
    by_cases h : (s.phone == p) = true <;> simp_all

theorem getSender_updateStatus_invalidated_self (snds : List Sender) (p : String) (now : Nat)
    (s : Sender) (h : GetSender snds p = some s) :
    GetSender (UpdateSenderStatus snds p "invalidated" now) p
      = some { s with status := "invalidated", invalidatedAt := some now } := by
  unfold UpdateSenderStatus
  rw [getSender_map]
  · have hp := getSender_phone snds p s h
    rw [h]
    simp [hp]
  · intro s
    by_cases h : (s.phone == p) = true <;> simp_all

theorem senderExists_updateStatus (snds : List Sender) (p q status : String) (now : Nat) :
    SenderExists (UpdateSenderStatus snds q status now) p = SenderExists snds p := by
  unfold SenderExists UpdateSenderStatus
  rw [getSender_map]
  · cases GetSender snds p <;> rfl
  · intro s
    by_cases h : (s.phone == q) = true <;>
      by_cases h2 : (status == "authenticated") = true <;>
        by_cases h3 : (status == "invalidated") = true <;>
          simp_all

theorem senderExists_updateDeviceID (snds : List Sender) (p q d : String) :
    SenderExists (UpdateSenderDeviceID snds q d) p = SenderExists snds p := by
  unfold SenderExists UpdateSenderDeviceID
  rw [getSender_map]
  · cases GetSender snds p <;> rfl
  · intro s
    by_cases h : (s.phone == q) = true <;> simp_all

theorem senderExists_createSender_self (snds : List Sender) (p : String) (now : Nat) :
    SenderExists (CreateSender snds p now) p = true := by
  simp [SenderExists, GetSender, CreateSender, List.find?_cons]

theorem senderExists_createSender_mono (snds : List Sender) (p q : String) (now : Nat)
    (h : SenderExists snds q = true) :
    SenderExists (CreateSender snds p now) q = true := by
  unfold SenderExists GetSender CreateSender at *
  rw [List.find?_cons]
  cases hq : ((⟨p, "", "pending", now, none, none⟩ : Sender).phone == q)
  · exact h
  · rfl

theorem findSession_map (l : List (String × QRCodeSession)) (t : String)
    (f : String × QRCodeSession → String × QRCodeSession) (hf : ∀ ts, (f ts).1 = ts.1) :
    (l.map f).find? (fun ts => ts.1 == t) = (l.find? (fun ts => ts.1 == t)).map f := by
  induction l with
  | nil => rfl
  | cons a l ih =>
    rw [List.map_cons, List.find?_cons, List.find?_cons, hf a]
    cases ha : a.1 == t
    · simpa using ih
    · rfl

theorem lookupSession_token (l : List (String × QRCodeSession)) (t : String)
    (ts : String × QRCodeSession) (h : l.find? (fun ts => ts.1 == t) = some ts) :
    ts.1 = t := by
  have := List.find?_some h
  simpa using this

theorem lookupSession_setStatus_self (l : List (String × QRCodeSession)) (t status : String)
    (s : QRCodeSession) (h : lookupSession l t = some s) :
    lookupSession (setSessionStatus l t status) t = some { s with status := status } := by
  unfold lookupSession setSessionStatus at *
  rw [findSession_map]
  · cases hf : l.find? (fun ts => ts.1 == t) with
    | none => rw [hf] at h; simp at h
    | some ts =>
      have ht := lookupSession_token l t ts hf
      have h2 : ts.2 = s := by
        rw [hf] at h
        simpa using h
      simp [ht, ← h2]
  · intro ts
    by_cases h : (ts.1 == t) = true <;> simp_all

theorem lookupSession_map_none (l : List (String × QRCodeSession)) (t : String)
    (f : String × QRCodeSession → String × QRCodeSession) (hf : ∀ ts, (f ts).1 = ts.1)
    (h : lookupSession l t = none) :
    lookupSession (l.map f) t = none := by
  unfold lookupSession at *
  rw [findSession_map l t f hf]
  cases hv : l.find? (fun ts => ts.1 == t)
  · rfl
  · rw [hv] at h; simp at h

theorem lookupSession_filter_none (l : List (String × QRCodeSession)) (t : String)
    (g : String × QRCodeSession → Bool) (h : lookupSession l t = none) :
    lookupSession (l.filter g) t = none := by
  unfold lookupSession at *
  have h' : l.find? (fun ts => ts.1 == t) = none := by
    cases hv : l.find? (fun ts => ts.1 == t) with
    | none => rfl
    | some v => rw [hv] at h; simp at h
  have h2 : (l.filter g).find? (fun ts => ts.1 == t) = none := by
    rw [List.find?_eq_none] at h' ⊢
    intro x hx
    exact h' x (List.mem_of_mem_filter hx)
  rw [h2]
  rfl

theorem getSender_updateStatus_expired (snds : List Sender) (p : String) (now : Nat) :
    GetSender (UpdateSenderStatus snds p "expired" now) p
      = (GetSender snds p).map (fun s => { s with status := "expired" }) := by
  cases hg : GetSender snds p with
  | none =>
    unfold UpdateSenderStatus
    rw [getSender_map]
    · rw [hg]
      rfl
    · intro s
      by_cases h : (s.phone == p) = true <;> simp_all
  | some s =>
    rw [getSender_updateStatus_expired_self snds p now s hg]
    rfl

theorem phoneCount_cons_pos (a : String × QRCodeSession) (l : List (String × QRCodeSession))
    (p : String) (h : (a.2.phone == p) = true) :
    phoneCount (a :: l) p = phoneCount l p + 1 := by
  unfold phoneCount
  rw [List.filter_cons, h]
  simp

theorem phoneCount_cons_neg (a : String × QRCodeSession) (l : List (String × QRCodeSession))
    (p : String) (h : (a.2.phone == p) = false) :
    phoneCount (a :: l) p = phoneCount l p := by
  unfold phoneCount
  rw [List.filter_cons, h]
  simp

theorem phoneCount_filter_le (l : List (String × QRCodeSession))
    (g : String × QRCodeSession → Bool) (p : String) :
    phoneCount (l.filter g) p ≤ phoneCount l p := by
  induction l with
  | nil => exact Nat.le_refl 0
  | cons a l ih =>
    rw [List.filter_cons]
    by_cases hg : g a = true
    · rw [if_pos hg]
      cases hp : a.2.phone == p
      · rw [phoneCount_cons_neg a _ p hp, phoneCount_cons_neg a l p hp]
        exact ih
      · rw [phoneCount_cons_pos a _ p hp, phoneCount_cons_pos a l p hp]
        exact Nat.succ_le_succ ih
    · rw [if_neg hg]
      cases hp : a.2.phone == p
      · rw [phoneCount_cons_neg a l p hp]
        exact ih
      · rw [phoneCount_cons_pos a l p hp]
        exact Nat.le_succ_of_le ih

theorem phoneCount_map (l : List (String × QRCodeSession))
    (f : String × QRCodeSession → String × QRCodeSession)
    (hf : ∀ ts, (f ts).2.phone = ts.2.phone) (p : String) :
    phoneCount (l.map f) p = phoneCount l p := by
  induction l with
  | nil => rfl
  | cons a l ih =>
    rw [List.map_cons]
    cases hp : a.2.phone == p
    · rw [phoneCount_cons_neg a l p hp, phoneCount_cons_neg (f a) _ p (by rw [hf a]; exact hp)]
      exact ih
    · rw [phoneCount_cons_pos a l p hp, phoneCount_cons_pos (f a) _ p (by rw [hf a]; exact hp)]
      rw [ih]

theorem phoneCount_eq_zero (l : List (String × QRCodeSession)) (p : String) :
    phoneCount l p = 0 ↔ ∀ ts ∈ l, (ts.2.phone == p) = false := by
  unfold phoneCount
  rw [List.length_eq_zero, List.filter_eq_nil_iff]
  constructor
  · intro h ts hts
    have := h ts hts
    simpa using this
  · intro h ts hts
    simp [h ts hts]

theorem phoneCount_remove (l : List (String × QRCodeSession)) (p : String) :
    phoneCount (removeSessionsForPhone l p) p = 0 := by
  rw [phoneCount_eq_zero]
  intro ts hts
  have := List.of_mem_filter hts
  simpa using this

theorem cleanup_senders_eq (st : QMState) (now : Nat) :
    (CleanupExpiredSessions st now).senders = sweepSenders st.sessions now st.senders := rfl

theorem getSender_sweepSenders (sessions : List (String × QRCodeSession)) (now : Nat)
    (snds : List Sender) (p : String) :
    GetSender (sweepSenders sessions now snds) p
      = if sessions.any (fun ts => ts.2.phone == p && decide (ts.2.expiresAt < now))
        then (GetSender snds p).map (fun s => { s with status := "expired" })
        else GetSender snds p := by
  induction sessions generalizing snds with
  | nil => rfl
  | cons a l ih =>
    unfold sweepSenders at *
    rw [List.foldl_cons, List.any_cons]
    by_cases hexp : a.2.expiresAt < now
    · rw [if_pos hexp]
      by_cases hp : (a.2.phone == p) = true
      · have hpe : a.2.phone = p := by simpa using hp
        rw [ih]
        have hupd : GetSender (UpdateSenderStatus snds a.2.phone "expired" now) p
            = (GetSender snds p).map (fun s => { s with status := "expired" }) := by
          rw [hpe]
          exact getSender_updateStatus_expired snds p now
        have hcond : (a.2.phone == p && decide (a.2.expiresAt < now)
            || l.any (fun ts => ts.2.phone == p && decide (ts.2.expiresAt < now))) = true := by
          simp [hp, hexp]
        rw [hcond, if_pos rfl]
        by_cases hl : (l.any (fun ts => ts.2.phone == p && decide (ts.2.expiresAt < now))) = true
        · rw [if_pos hl, hupd, Option.map_map]
          cases GetSender snds p with
          | none => rfl
          | some s => rfl
        · rw [if_neg hl, hupd]
      · have hpb : (a.2.phone == p) = false := by simpa using hp
        have hne : p ≠ a.2.phone := by
          intro he
          rw [he] at hpb
          simp at hpb
        rw [ih, getSender_updateStatus_ne snds p a.2.phone "expired" now hne, hpb, Bool.false_and,
          Bool.false_or]
    · rw [if_neg hexp]
      have hdec : (decide (a.2.expiresAt < now)) = false := by simpa using hexp
      rw [ih, hdec, Bool.and_false, Bool.false_or]

theorem senderExists_sweepSenders (sessions : List (String × QRCodeSession)) (now : Nat)
    (snds : List Sender) (p : String) :
    SenderExists (sweepSenders sessions now snds) p = SenderExists snds p := by
  unfold SenderExists
  rw [getSender_sweepSenders]
  by_cases h : (sessions.any (fun ts => ts.2.phone == p && decide (ts.2.expiresAt < now))) = true
  · rw [if_pos h]
    cases GetSender snds p <;> rfl
  · rw [if_neg h]

theorem inv_sessions_map (st : QMState) (hInv : SessionTableInv st)
    (f : String × QRCodeSession → String × QRCodeSession)
    (hf : ∀ ts, (f ts).2.phone = ts.2.phone)
    (newSenders : List Sender)
    (hse : ∀ q, SenderExists newSenders q = SenderExists st.senders q) :
    SessionTableInv ⟨st.sessions.map f, newSenders⟩ := by
  constructor
  · intro p
    rw [phoneCount_map st.sessions f hf p]
    exact hInv.1 p
  · intro ts hts
    obtain ⟨ts0, hts0, rfl⟩ := List.mem_map.mp hts
    rw [hf ts0, hse]
    exact hInv.2 ts0 hts0

theorem inv_updateSessionStatus (st : QMState) (hInv : SessionTableInv st)
    (token phone status : String) (now : Nat) :
    SessionTableInv (updateSessionStatus st token phone status now) := by
  apply inv_sessions_map st hInv
  · intro ts
    by_cases h : (ts.1 == token) = true <;> simp_all
  · intro q
    exact senderExists_updateStatus st.senders q phone status now

theorem inv_getQRCode (st : QMState) (hInv : SessionTableInv st) (token : String) (now : Nat) :
    SessionTableInv (GetQRCode st token now).2 := by
  cases hl : lookupSession st.sessions token with
  | none =>
    simp only [GetQRCode, hl]
    exact hInv
  | some s =>
    simp only [GetQRCode, hl]
    by_cases hexp : s.expiresAt < now
    · simp only [if_pos hexp]
      apply inv_sessions_map st hInv
      · intro ts
        by_cases h : (ts.1 == token) = true <;> simp_all
      · intro q
        rfl
    · simpa [hexp] using hInv

theorem inv_cleanup (st : QMState) (hInv : SessionTableInv st) (now : Nat) :
    SessionTableInv (CleanupExpiredSessions st now) := by
  constructor
  · intro p
    exact Nat.le_trans (phoneCount_filter_le st.sessions _ p) (hInv.1 p)
  · intro ts hts
    have hmem : ts ∈ st.sessions := List.mem_of_mem_filter hts
    rw [cleanup_senders_eq, senderExists_sweepSenders]
    exact hInv.2 ts hmem

theorem inv_bridgeStep (st : QMState) (hInv : SessionTableInv st) (token : String)
    (evt : WAQREvent) (now : Nat) :
    SessionTableInv (generateQRCodeStep st token evt now).1 := by
  cases hl : lookupSession st.sessions token with
  | none =>
    simp only [generateQRCodeStep, hl]
    exact hInv
  | some s =>
    simp only [generateQRCodeStep, hl]
    by_cases hcode : (evt.event == "code") = true
    · rw [if_pos hcode]
      apply inv_sessions_map st hInv
      · intro ts
        by_cases h : (ts.1 == token) = true <;> simp_all
      · intro q
        rfl
    · rw [if_neg hcode]
      by_cases htime : (evt.event == "timeout") = true
      · rw [if_pos htime]
        apply inv_sessions_map st hInv
        · intro ts
          by_cases h : (ts.1 == token) = true <;> simp_all
        · intro q
          rfl
      · rw [if_neg htime]
        by_cases hsucc : (evt.event == "success") = true
        · rw [if_pos hsucc]
          cases hid : s.client.storeID with
          | none =>
            apply inv_sessions_map st hInv
            · intro ts
              by_cases h : (ts.1 == token) = true <;> simp_all
            · intro q
              rfl
          | some d =>
            apply inv_sessions_map st hInv
            · intro ts
              by_cases h : (ts.1 == token) = true <;> simp_all
            · intro q
              exact senderExists_updateDeviceID st.senders q s.phone d
        · rw [if_neg hsucc]
          exact hInv

theorem inv_connectFail (st : QMState) (hInv : SessionTableInv st) (token : String)
    (now : Nat) :
    SessionTableInv (generateQRCodeConnectFail st token now) := by
  cases hl : lookupSession st.sessions token with
  | none =>
    simp only [generateQRCodeConnectFail, hl]
    exact hInv
  | some s =>
    simp only [generateQRCodeConnectFail, hl]
    exact inv_updateSessionStatus st hInv token s.phone "expired" now

theorem getQRCode_no_insert (st : QMState) (token : String) (now : Nat) (t : String)
    (h : lookupSession st.sessions t = none) :
    lookupSession (GetQRCode st token now).2.sessions t = none := by
  cases hl : lookupSession st.sessions token with
  | none =>
    simp only [GetQRCode, hl]
    exact h
  | some s =>
    simp only [GetQRCode, hl]
    by_cases hexp : s.expiresAt < now
    · simp only [if_pos hexp]
      exact lookupSession_map_none st.sessions t _
        (fun ts => by by_cases hh : (ts.1 == token) = true <;> simp_all) h
    · simp only [if_neg hexp]
      exact h

theorem cleanup_no_insert (st : QMState) (now : Nat) (t : String)
    (h : lookupSession st.sessions t = none) :
    lookupSession (CleanupExpiredSessions st now).sessions t = none :=
  lookupSession_filter_none st.sessions t _ h

theorem bridgeStep_no_insert (st : QMState) (token : String) (evt : WAQREvent) (now : Nat)
    (t : String) (h : lookupSession st.sessions t = none) :
    lookupSession (generateQRCodeStep st token evt now).1.sessions t = none := by
  cases hl : lookupSession st.sessions token with
  | none =>
    simp only [generateQRCodeStep, hl]
    exact h
  | some s =>
    simp only [generateQRCodeStep, hl]
    by_cases hcode : (evt.event == "code") = true
    · simp only [if_pos hcode]
      exact lookupSession_map_none st.sessions t _
        (fun ts => by by_cases hh : (ts.1 == token) = true <;> simp_all) h
    · simp only [if_neg hcode]
      by_cases htime : (evt.event == "timeout") = true
      · simp only [if_pos htime]
        exact lookupSession_map_none st.sessions t _
          (fun ts => by by_cases hh : (ts.1 == token) = true <;> simp_all) h
      · simp only [if_neg htime]
        by_cases hsucc : (evt.event == "success") = true
        · simp only [if_pos hsucc]
          exact lookupSession_map_none st.sessions t _
            (fun ts => by by_cases hh : (ts.1 == token) = true <;> simp_all) h
        · simp only [if_neg hsucc]
          exact h

theorem connectFail_no_insert (st : QMState) (token : String) (now : Nat) (t : String)
    (h : lookupSession st.sessions t = none) :
    lookupSession (generateQRCodeConnectFail st token now).sessions t = none := by
  cases hl : lookupSession st.sessions token with
  | none =>
    simp only [generateQRCodeConnectFail, hl]
    exact h
  | some s =>
    simp only [generateQRCodeConnectFail, hl]
    exact lookupSession_map_none st.sessions t _
      (fun ts => by by_cases hh : (ts.1 == token) = true <;> simp_all) h

theorem filter_phone_eq_nil_of_count_zero (l : List (String × QRCodeSession)) (p : String)
    (h : phoneCount l p = 0) :
    l.filter (fun ts => ts.2.phone == p) = [] := by
  unfold phoneCount at h
  exact List.eq_nil_of_length_eq_zero h

theorem create_ok_spec (st : QMState) (hInv : SessionTableInv st)
    (phone token : String) (client : WMClient) (expiryMinutes now : Nat)
    (ns : QRCodeSession) (st' : QMState)
    (hok : CreateQRCodeSession st phone token client expiryMinutes now = .ok (ns, st')) :
    SessionTableInv st' ∧
    st'.sessions.filter (fun ts => ts.2.phone == phone) = [(token, ns)] ∧
    ns.phone = phone := by
  cases hg : GetSender st.senders phone with
  | some sender =>
    by_cases hauth : (sender.status == "authenticated") = true
    · rw [CreateQRCodeSession] at hok
      simp only [hg, if_pos hauth] at hok
      exact Except.noConfusion hok
    · rw [CreateQRCodeSession] at hok
      simp only [hg, if_neg hauth, Except.ok.injEq, Prod.mk.injEq] at hok
      obtain ⟨hns, hst⟩ := hok
      subst hns
      subst hst
      have hsx : SenderExists st.senders phone = true := by
        unfold SenderExists
        rw [hg]
        rfl
      refine ⟨⟨?_, ?_⟩, ?_, rfl⟩
      · intro q
        by_cases hq : ((phone : String) == q) = true
        · have hqe : phone = q := by simpa using hq
          rw [phoneCount_cons_pos _ _ q hq]
          subst hqe
          rw [phoneCount_remove st.sessions phone]
        · have hqb : ((phone : String) == q) = false := by simpa using hq
          rw [phoneCount_cons_neg _ _ q hqb]
          exact Nat.le_trans (phoneCount_filter_le st.sessions _ q) (hInv.1 q)
      · intro ts hts
        rcases List.mem_cons.mp hts with hh | hh
        · subst hh
          rw [senderExists_updateStatus]
          exact hsx
        · have hmem : ts ∈ st.sessions := List.mem_of_mem_filter hh
          rw [senderExists_updateStatus]
          exact hInv.2 ts hmem
      · rw [List.filter_cons]
        rw [filter_phone_eq_nil_of_count_zero _ phone (phoneCount_remove st.sessions phone)]
        simp
  | none =>
    rw [CreateQRCodeSession] at hok
    simp only [hg, Except.ok.injEq, Prod.mk.injEq] at hok
    obtain ⟨hns, hst⟩ := hok
    subst hns
    subst hst
    have hzero : phoneCount st.sessions phone = 0 := by
      rw [phoneCount_eq_zero]
      intro ts hts
      cases hb : ts.2.phone == phone with
      | false => rfl
      | true =>
        exfalso
        have hpe : ts.2.phone = phone := by simpa using hb
        have h2 := hInv.2 ts hts
        rw [hpe] at h2
        unfold SenderExists at h2
        rw [hg] at h2
        simp at h2
    refine ⟨⟨?_, ?_⟩, ?_, rfl⟩
    · intro q
      by_cases hq : ((phone : String) == q) = true
      · have hqe : phone = q := by simpa using hq
        rw [phoneCount_cons_pos _ _ q hq]
        subst hqe
        rw [hzero]
      · have hqb : ((phone : String) == q) = false := by simpa using hq
        rw [phoneCount_cons_neg _ _ q hqb]
        exact hInv.1 q
    · intro ts hts
      rcases List.mem_cons.mp hts with hh | hh
      · subst hh
        exact senderExists_createSender_self st.senders phone now
      · exact senderExists_createSender_mono st.senders phone ts.2.phone now (hInv.2 ts hh)
    · rw [List.filter_cons]
      rw [filter_phone_eq_nil_of_count_zero _ phone hzero]
      simp

/-! ### Claims -/

/-- **C2**: at every time and for every phone, at most one live AuthSession per
phone exists in the Session Table. The invariant is preserved by every table
operation; `CreateQRCodeSession` evicts any existing live session for the
phone before inserting the new one (after a successful create the phone's
sessions are exactly the new one); and none of `GetQRCode`,
`CleanupExpiredSessions`, the pairing-event steps or the connect-failure
path ever inserts a session (a token absent before stays absent). -/
theorem c2_at_most_one_live_session_per_phone (st : QMState) (hInv : SessionTableInv st) :
    (∀ phone token client expiryMinutes now ns st',
        CreateQRCodeSession st phone token client expiryMinutes now = .ok (ns, st') →
          SessionTableInv st' ∧
          st'.sessions.filter (fun ts => ts.2.phone == phone) = [(token, ns)]) ∧
    (∀ token now, SessionTableInv (GetQRCode st token now).2) ∧
    (∀ now, SessionTableInv (CleanupExpiredSessions st now)) ∧
    (∀ token evt now, SessionTableInv (generateQRCodeStep st token evt now).1) ∧
    (∀ token now, SessionTableInv (generateQRCodeConnectFail st token now)) ∧
    (∀ token now t, lookupSession st.sessions t = none →
        lookupSession (GetQRCode st token now).2.sessions t = none) ∧
    (∀ now t, lookupSession st.sessions t = none →
        lookupSession (CleanupExpiredSessions st now).sessions t = none) ∧
    (∀ token evt now t, lookupSession st.sessions t = none →
        lookupSession (generateQRCodeStep st token evt now).1.sessions t = none) ∧
    (∀ token now t, lookupSession st.sessions t = none →
        lookupSession (generateQRCodeConnectFail st token now).sessions t = none) := by
  refine ⟨?_, ?_, ?_, ?_, ?_, ?_, ?_, ?_, ?_⟩
  · intro phone token client expiryMinutes now ns st' hok
    have h := create_ok_spec st hInv phone token client expiryMinutes now ns st' hok
    exact ⟨h.1, h.2.1⟩
  · intro token now
    exact inv_getQRCode st hInv token now
  · intro now
    exact inv_cleanup st hInv now
  · intro token evt now
    exact inv_bridgeStep st hInv token evt now
  · intro token now
    exact inv_connectFail st hInv token now
  · intro token now t h
    exact getQRCode_no_insert st token now t h
  · intro now t h
    exact cleanup_no_insert st now t h
  · intro token evt now t h
    exact bridgeStep_no_insert st token evt now t h
  · intro token now t h
    exact connectFail_no_insert st token now t h

/-- Witness for C2: on a concrete state holding one pending session for phone
2000000000, a re-registration evicts it, and the new state again satisfies the
invariant with exactly the new session for that phone. -/
theorem c2_at_most_one_live_session_per_phone_witness :
    SessionTableInv
      (⟨[("tokNew", ⟨"2000000000", "tokNew", "", 600, ⟨none, true⟩, "pending"⟩)],
        [⟨"2000000000", "", "pending", 0, none, none⟩]⟩ : QMState) ∧
    (⟨[("tokNew", ⟨"2000000000", "tokNew", "", 600, ⟨none, true⟩, "pending"⟩)],
        [⟨"2000000000", "", "pending", 0, none, none⟩]⟩ : QMState).sessions.filter
        (fun ts => ts.2.phone == "2000000000")
      = [("tokNew", ⟨"2000000000", "tokNew", "", 600, ⟨none, true⟩, "pending"⟩)] := by
  have hInv : SessionTableInv
      (⟨[("tokOld", ⟨"2000000000", "tokOld", "Q0", 600, ⟨none, false⟩, "pending"⟩)],
        [⟨"2000000000", "", "pending", 0, none, none⟩]⟩ : QMState) := by
    constructor
    · intro p
      exact List.length_filter_le _ _
    · intro ts hts
      rcases List.mem_singleton.mp hts with rfl
      rfl
  exact (c2_at_most_one_live_session_per_phone _ hInv).1 "2000000000" "tokNew"
    ⟨none, true⟩ 10 0
    ⟨"2000000000", "tokNew", "", 600, ⟨none, true⟩, "pending"⟩
    ⟨[("tokNew", ⟨"2000000000", "tokNew", "", 600, ⟨none, true⟩, "pending"⟩)],
      [⟨"2000000000", "", "pending", 0, none, none⟩]⟩
    (by rfl)

/-- Counterexample to **C1** as stated: on the concrete state with one session
for phone 2000000000 expiring at time 600, a `get` at time 601 does not fail
with an Expired error — it self-deadlocks re-locking `session.mu` inside
`updateSessionStatus` and serves nothing — and it neither removes the session
from the table nor sets the Sender Directory status to `invalidated`: the
directory row keeps its untouched `pending` status. -/
theorem c1_counterexample :
    (GetQRCode ⟨[("tok1", ⟨"2000000000", "tok1", "QRDATA", 600, ⟨none, false⟩, "pending"⟩)],
        [⟨"2000000000", "", "pending", 0, none, none⟩]⟩ "tok1" 601).1 = .deadlock ∧
    lookupSession (GetQRCode ⟨[("tok1", ⟨"2000000000", "tok1", "QRDATA", 600, ⟨none, false⟩,
          "pending"⟩)], [⟨"2000000000", "", "pending", 0, none, none⟩]⟩ "tok1" 601).2.sessions
        "tok1" ≠ none ∧
    (GetSender (GetQRCode ⟨[("tok1", ⟨"2000000000", "tok1", "QRDATA", 600, ⟨none, false⟩,
          "pending"⟩)], [⟨"2000000000", "", "pending", 0, none, none⟩]⟩ "tok1" 601).2.senders
        "2000000000").map Sender.status
      = some "pending" ∧
    some ("pending" : String) ≠ some "invalidated" := by
  refine ⟨rfl, by decide, rfl, by decide⟩

/-- **C1** (amended): for every token whose session has `now > expiresAt`,
`get(token)` writes the in-memory session status `expired` and then
self-deadlocks re-acquiring the session lock inside `updateSessionStatus`:
it returns no response, leaves the Sender Directory untouched, and leaves
the session in the table. Only an unknown token produces a served failure —
NotFound, which the HTTP layer renders as 404. -/
theorem c1_get_expired_transition (st : QMState) (token : String) (s : QRCodeSession)
    (now : Nat)
    (hs : lookupSession st.sessions token = some s)
    (hexp : s.expiresAt < now) :
    (GetQRCode st token now).1 = .deadlock ∧
    lookupSession (GetQRCode st token now).2.sessions token
      = some { s with status := "expired" } ∧
    (GetQRCode st token now).2.senders = st.senders ∧
    (∀ t, lookupSession st.sessions t = none → (GetQRCode st t now).1 = .notFound) ∧
    handleGetQRCodeErrorStatus .notFound = 404 := by
  refine ⟨?_, ?_, ?_, ?_, rfl⟩
  · simp only [GetQRCode, hs, if_pos hexp]
  · simp only [GetQRCode, hs, if_pos hexp]
    exact lookupSession_setStatus_self st.sessions token "expired" s hs
  · simp only [GetQRCode, hs, if_pos hexp]
  · intro t ht
    simp only [GetQRCode, ht]

/-- Witness for the amended C1 at the concrete expired-session state. -/
theorem c1_get_expired_transition_witness :
    (GetQRCode ⟨[("tok1", ⟨"2000000000", "tok1", "QRDATA", 600, ⟨none, false⟩, "pending"⟩)],
        [⟨"2000000000", "", "pending", 0, none, none⟩]⟩ "tok1" 601).1 = .deadlock ∧
    lookupSession (GetQRCode ⟨[("tok1", ⟨"2000000000", "tok1", "QRDATA", 600, ⟨none, false⟩,
          "pending"⟩)], [⟨"2000000000", "", "pending", 0, none, none⟩]⟩ "tok1" 601).2.sessions
        "tok1"
      = some ⟨"2000000000", "tok1", "QRDATA", 600, ⟨none, false⟩, "expired"⟩ := by
  have h := c1_get_expired_transition
    ⟨[("tok1", ⟨"2000000000", "tok1", "QRDATA", 600, ⟨none, false⟩, "pending"⟩)],
      [⟨"2000000000", "", "pending", 0, none, none⟩]⟩
    "tok1" ⟨"2000000000", "tok1", "QRDATA", 600, ⟨none, false⟩, "pending"⟩ 601
    (by rfl) (by decide)
  exact ⟨h.1, h.2.1⟩

theorem containsAux_mono (pat : List Char) (c : Char) (l : List Char)
    (h : containsAux pat l = true) : containsAux pat (c :: l) = true := by
  unfold containsAux
  rw [h]
  simp

theorem containsAux_append (pat xs ys : List Char) (h : containsAux pat ys = true) :
    containsAux pat (xs ++ ys) = true := by
  induction xs with
  | nil => simpa using h
  | cons c xs ih => exact containsAux_mono pat c _ ih

theorem strContains_already_authenticated (phone : String) :
    strContains ("sender " ++ phone ++ " is already authenticated")
      "already authenticated" = true := by
  unfold strContains
  have hdata : ("sender " ++ phone ++ " is already authenticated").data
      = "sender ".data ++ (phone.data ++ " is already authenticated".data) := by
    simp [String.data_append]
  rw [hdata]
  apply containsAux_append
  apply containsAux_append
  decide

/-- **C3**: `create(phone)` fails with AlreadyAuthenticated (rendered as HTTP
409 by the register handler) exactly when the phone's Sender Directory row has
status `authenticated`; for a phone present with any other status, create
succeeds, resets the directory status to `pending`, and the new table consists
of the new pending session consed onto the table purged of the phone's
sessions (`removeSessionsForPhone` runs before the insert). -/
theorem c3_create_already_authenticated (st : QMState) (phone token : String)
    (client : WMClient) (expiryMinutes now : Nat) :
    (CreateQRCodeSession st phone token client expiryMinutes now
        = .error (.alreadyAuthenticated phone)
      ↔ (GetSender st.senders phone).map Sender.status = some "authenticated") ∧
    (∀ s, GetSender st.senders phone = some s → s.status ≠ "authenticated" →
      ∃ ns st', CreateQRCodeSession st phone token client expiryMinutes now = .ok (ns, st') ∧
        (GetSender st'.senders phone).map Sender.status = some "pending" ∧
        st'.sessions = (token, ns) :: removeSessionsForPhone st.sessions phone ∧
        ns.status = "pending" ∧ ns.phone = phone) ∧
    handleRegisterErrorStatus (.alreadyAuthenticated phone) = 409 := by
  refine ⟨⟨?_, ?_⟩, ?_, ?_⟩
  · intro heq
    cases hg : GetSender st.senders phone with
    | none =>
      rw [CreateQRCodeSession] at heq
      simp only [hg] at heq
      exact Except.noConfusion heq
    | some sender =>
      by_cases hauth : (sender.status == "authenticated") = true
      · have hstat : sender.status = "authenticated" := by simpa using hauth
        simp [hstat]
      · rw [CreateQRCodeSession] at heq
        simp only [hg, if_neg hauth] at heq
        exact Except.noConfusion heq
  · intro hmap
    cases hg : GetSender st.senders phone with
    | none =>
      rw [hg] at hmap
      simp at hmap
    | some sender =>
      rw [hg] at hmap
      have hstat : sender.status = "authenticated" := by simpa using hmap
      rw [CreateQRCodeSession]
      simp only [hg]
      rw [if_pos (by simp [hstat])]
  · intro s hs hne
    refine ⟨⟨phone, token, "", now + expiryMinutes * 60, client, "pending"⟩,
      ⟨(token, ⟨phone, token, "", now + expiryMinutes * 60, client, "pending"⟩) ::
          removeSessionsForPhone st.sessions phone,
        UpdateSenderStatus st.senders phone "pending" now⟩, ?_, ?_, rfl, rfl, rfl⟩
    · rw [CreateQRCodeSession]
      simp only [hs]
      rw [if_neg (by simpa using hne)]
    · rw [getSender_updateStatus_pending_self st.senders phone now s hs]
      rfl
  · unfold handleRegisterErrorStatus CreateError.message
    rw [strContains_already_authenticated]
    rfl

/-- Witness for C3: registering the already-authenticated phone 5551112222
fails with AlreadyAuthenticated and the handler answers 409. -/
theorem c3_create_already_authenticated_witness :
    CreateQRCodeSession ⟨[], [⟨"5551112222", "dev7", "authenticated", 0, some 9, none⟩]⟩
        "5551112222" "tokC3" ⟨none, true⟩ 10 100
      = .error (.alreadyAuthenticated "5551112222") ∧
    handleRegisterErrorStatus (.alreadyAuthenticated "5551112222") = 409 := by
  have h := c3_create_already_authenticated
    ⟨[], [⟨"5551112222", "dev7", "authenticated", 0, some 9, none⟩]⟩ "5551112222" "tokC3"
    ⟨none, true⟩ 10 100
  exact ⟨h.1.mpr (by rfl), h.2.2⟩

theorem bridgeStep_timeout_eq (st : QMState) (token : String) (s : QRCodeSession)
    (now : Nat) (c : String) (hs : lookupSession st.sessions token = some s) :
    generateQRCodeStep st token ⟨"timeout", c⟩ now
      = ({ st with sessions := setSessionStatus st.sessions token "expired" },
          .deadlock) := by
  simp only [generateQRCodeStep, hs]
  rfl

/-- Counterexample to **C4** as stated: a `timeout` event on the concrete
pending session for phone 2000000000 wedges the bridge inside
`updateSessionStatus` before any Sender Directory write — the directory row
keeps its untouched `pending` status, which is not `invalidated`. -/
theorem c4_counterexample :
    (generateQRCodeStep ⟨[("tok4", ⟨"2000000000", "tok4", "Q4", 600, ⟨none, false⟩,
        "pending"⟩)], [⟨"2000000000", "", "pending", 0, none, none⟩]⟩ "tok4"
        ⟨"timeout", ""⟩ 50).2 = .deadlock ∧
    (GetSender ((generateQRCodeStep ⟨[("tok4", ⟨"2000000000", "tok4", "Q4", 600, ⟨none, false⟩,
          "pending"⟩)], [⟨"2000000000", "", "pending", 0, none, none⟩]⟩ "tok4"
          ⟨"timeout", ""⟩ 50).1).senders "2000000000").map Sender.status
      = some "pending" ∧
    some ("pending" : String) ≠ some "invalidated" := by
  refine ⟨rfl, rfl, by decide⟩

/-- **C4** (amended): on a `timeout` event the Pairing Event Bridge marks the
in-memory session status `expired` and then self-deadlocks re-acquiring the
session lock inside `updateSessionStatus`: the Sender Directory is never
written and the goroutine consumes no further events, wedged holding the
session lock. When the connect call fails before any event, no lock is held,
so that path completes: the session status becomes `expired` and the Sender
Directory status of the session's phone becomes the string `"expired"` (not
`"invalidated"`). -/
theorem c4_bridge_timeout_transition (st : QMState) (token : String) (s : QRCodeSession)
    (now : Nat) (snd : Sender) (c : String)
    (hs : lookupSession st.sessions token = some s)
    (hsnd : GetSender st.senders s.phone = some snd) :
    (generateQRCodeStep st token ⟨"timeout", c⟩ now).2 = .deadlock ∧
    lookupSession (generateQRCodeStep st token ⟨"timeout", c⟩ now).1.sessions token
      = some { s with status := "expired" } ∧
    (generateQRCodeStep st token ⟨"timeout", c⟩ now).1.senders = st.senders ∧
    lookupSession (generateQRCodeConnectFail st token now).sessions token
      = some { s with status := "expired" } ∧
    GetSender (generateQRCodeConnectFail st token now).senders s.phone
      = some { snd with status := "expired" } := by
  rw [bridgeStep_timeout_eq st token s now c hs]
  refine ⟨rfl, ?_, rfl, ?_, ?_⟩
  · exact lookupSession_setStatus_self st.sessions token "expired" s hs
  · simp only [generateQRCodeConnectFail, hs, updateSessionStatus]
    exact lookupSession_setStatus_self st.sessions token "expired" s hs
  · simp only [generateQRCodeConnectFail, hs, updateSessionStatus]
    exact getSender_updateStatus_expired_self st.senders s.phone now snd hsnd

/-- Witness for the amended C4 at the concrete pending-session state. -/
theorem c4_bridge_timeout_transition_witness :
    (generateQRCodeStep ⟨[("tok4", ⟨"2000000000", "tok4", "Q4", 600, ⟨none, false⟩,
        "pending"⟩)], [⟨"2000000000", "", "pending", 0, none, none⟩]⟩ "tok4"
        ⟨"timeout", ""⟩ 50).2 = .deadlock ∧
    GetSender (generateQRCodeConnectFail ⟨[("tok4", ⟨"2000000000", "tok4", "Q4", 600,
        ⟨none, false⟩, "pending"⟩)], [⟨"2000000000", "", "pending", 0, none, none⟩]⟩ "tok4"
        50).senders "2000000000"
      = some ⟨"2000000000", "", "expired", 0, none, none⟩ := by
  have h := c4_bridge_timeout_transition
    ⟨[("tok4", ⟨"2000000000", "tok4", "Q4", 600, ⟨none, false⟩, "pending"⟩)],
      [⟨"2000000000", "", "pending", 0, none, none⟩]⟩
    "tok4" ⟨"2000000000", "tok4", "Q4", 600, ⟨none, false⟩, "pending"⟩ 50
    ⟨"2000000000", "", "pending", 0, none, none⟩ "" (by rfl) (by rfl)
  exact ⟨h.1, h.2.2.2.2⟩

theorem bridgeStep_success_eq (st : QMState) (token : String) (s : QRCodeSession)
    (now : Nat) (c d : String) (hs : lookupSession st.sessions token = some s)
    (hid : s.client.storeID = some d) :
    generateQRCodeStep st token ⟨"success", c⟩ now
      = (⟨setSessionStatus st.sessions token "authenticated",
          UpdateSenderDeviceID st.senders s.phone d⟩, .deadlock) := by
  simp only [generateQRCodeStep, hs, hid]
  rfl

/-- **C5** is right about the code's evident intent — the
`updateSessionStatus(session, "authenticated")` call exists precisely to
persist status `authenticated` to the Sender Directory — but the code has a
bug: the `success` case already holds `session.mu` (taken at the loop top,
line 272) when it makes that call, and `updateSessionStatus` re-locks the
same non-reentrant mutex (line 306). This theorem evaluates the model at the
failing input (phone 1000000000, pending session `tok5`, assigned device
`dev9.1`, success event at time 50): the bridge persists the device
identifier and marks the in-memory session `authenticated`, then wedges —
the directory row keeps status `pending` and no completing `get` of the
token can follow, since the wedged goroutine holds the session lock. -/
theorem c5_success_deadlock_at_failing_input :
    (generateQRCodeStep ⟨[("tok5", ⟨"1000000000", "tok5", "Q5", 600, ⟨some "dev9.1", true⟩,
        "pending"⟩)], [⟨"1000000000", "", "pending", 0, none, none⟩]⟩
        "tok5" ⟨"success", ""⟩ 50).2 = .deadlock ∧
    lookupSession ((generateQRCodeStep ⟨[("tok5", ⟨"1000000000", "tok5", "Q5", 600,
        ⟨some "dev9.1", true⟩, "pending"⟩)], [⟨"1000000000", "", "pending", 0, none, none⟩]⟩
        "tok5" ⟨"success", ""⟩ 50).1).sessions "tok5"
      = some ⟨"1000000000", "tok5", "Q5", 600, ⟨some "dev9.1", true⟩, "authenticated"⟩ ∧
    GetSender ((generateQRCodeStep ⟨[("tok5", ⟨"1000000000", "tok5", "Q5", 600,
        ⟨some "dev9.1", true⟩, "pending"⟩)], [⟨"1000000000", "", "pending", 0, none, none⟩]⟩
        "tok5" ⟨"success", ""⟩ 50).1).senders "1000000000"
      = some ⟨"1000000000", "dev9.1", "pending", 0, none, none⟩ :=
  ⟨rfl, rfl, rfl⟩

theorem lookupSession_mem (l : List (String × QRCodeSession)) (t : String) (s : QRCodeSession)
    (h : lookupSession l t = some s) :
    ∃ ts ∈ l, ts.1 = t ∧ ts.2 = s := by
  unfold lookupSession at h
  cases hf : l.find? (fun ts => ts.1 == t) with
  | none =>
    rw [hf] at h
    simp at h
  | some ts =>
    have hmem := List.mem_of_find?_eq_some hf
    have ht := lookupSession_token l t ts hf
    rw [hf] at h
    have h2 : ts.2 = s := by simpa using h
    exact ⟨ts, hmem, ht, h2⟩

theorem lookupSession_filter_none_of_all (l : List (String × QRCodeSession)) (t : String)
    (g : String × QRCodeSession → Bool)
    (h : ∀ ts ∈ l, ts.1 = t → g ts = false) :
    lookupSession (l.filter g) t = none := by
  unfold lookupSession
  have h2 : (l.filter g).find? (fun ts => ts.1 == t) = none := by
    rw [List.find?_eq_none]
    intro x hx hbeq
    have hmem := List.mem_of_mem_filter hx
    have hgx := List.of_mem_filter hx
    have hxt : x.1 = t := by simpa using hbeq
    rw [h x hmem hxt] at hgx
    exact Bool.noConfusion hgx
  rw [h2]
  rfl

/-- Counterexample to **C6** as stated: on the concrete expired session, the
sweep and the lazy `get` do not produce equal results — the sweep completes
(directory row status `"expired"`, session removed from the table) while the
`get` self-deadlocks before any directory write (row still `"pending"`,
session still in the table). -/
theorem c6_counterexample :
    (GetSender (CleanupExpiredSessions ⟨[("tok6", ⟨"2000000000", "tok6", "Q6", 600,
        ⟨none, false⟩, "pending"⟩)], [⟨"2000000000", "", "pending", 0, none, none⟩]⟩
        601).senders "2000000000").map Sender.status = some "expired" ∧
    (GetSender (GetQRCode ⟨[("tok6", ⟨"2000000000", "tok6", "Q6", 600, ⟨none, false⟩,
        "pending"⟩)], [⟨"2000000000", "", "pending", 0, none, none⟩]⟩ "tok6" 601).2.senders
        "2000000000").map Sender.status = some "pending" ∧
    some ("expired" : String) ≠ some "pending" ∧
    lookupSession (CleanupExpiredSessions ⟨[("tok6", ⟨"2000000000", "tok6", "Q6", 600,
        ⟨none, false⟩, "pending"⟩)], [⟨"2000000000", "", "pending", 0, none, none⟩]⟩
        601).sessions "tok6" = none ∧
    lookupSession (GetQRCode ⟨[("tok6", ⟨"2000000000", "tok6", "Q6", 600, ⟨none, false⟩,
        "pending"⟩)], [⟨"2000000000", "", "pending", 0, none, none⟩]⟩ "tok6" 601).2.sessions
        "tok6" ≠ none := by
  refine ⟨rfl, rfl, by decide, rfl, by decide⟩

/-- **C6** (amended): for a session past its `expiresAt`, the sweep and
`get`'s lazy path agree only on marking the in-memory session status
`expired`; they are not the same transition. The sweep completes: it writes
the status string `"expired"` to the phone's directory row and removes the
session from the table. The lazy `get` self-deadlocks inside
`updateSessionStatus` before any directory write: the senders table is left
untouched and the session stays in the table, marked `"expired"`. -/
theorem c6_sweep_vs_get (st : QMState) (token : String) (s : QRCodeSession) (now : Nat)
    (hs : lookupSession st.sessions token = some s)
    (hexp : s.expiresAt < now)
    (hall : ∀ ts ∈ st.sessions, ts.1 = token → ts.2.expiresAt < now) :
    GetSender (CleanupExpiredSessions st now).senders s.phone
      = (GetSender st.senders s.phone).map (fun x => { x with status := "expired" }) ∧
    lookupSession (CleanupExpiredSessions st now).sessions token = none ∧
    (GetQRCode st token now).1 = .deadlock ∧
    (GetQRCode st token now).2.senders = st.senders ∧
    lookupSession (GetQRCode st token now).2.sessions token
      = some { s with status := "expired" } := by
  refine ⟨?_, ?_, ?_, ?_, ?_⟩
  · rw [cleanup_senders_eq, getSender_sweepSenders]
    obtain ⟨ts0, hmem, ht, hts⟩ := lookupSession_mem st.sessions token s hs
    have hany : (st.sessions.any
        fun ts => ts.2.phone == s.phone && decide (ts.2.expiresAt < now)) = true := by
      rw [List.any_eq_true]
      refine ⟨ts0, hmem, ?_⟩
      rw [hts]
      simp [hexp]
    rw [hany, if_pos rfl]
  · apply lookupSession_filter_none_of_all
    intro ts hmem ht
    have hlt := hall ts hmem ht
    simp [hlt]
  · simp only [GetQRCode, hs, if_pos hexp]
  · simp only [GetQRCode, hs, if_pos hexp]
  · simp only [GetQRCode, hs, if_pos hexp]
    exact lookupSession_setStatus_self st.sessions token "expired" s hs

/-- Witness for the amended C6 at the concrete expired-session state. -/
theorem c6_sweep_vs_get_witness :
    GetSender (CleanupExpiredSessions ⟨[("tok6", ⟨"2000000000", "tok6", "Q6", 600,
        ⟨none, false⟩, "pending"⟩)], [⟨"2000000000", "", "pending", 0, none, none⟩]⟩
        601).senders "2000000000"
      = some ⟨"2000000000", "", "expired", 0, none, none⟩ ∧
    lookupSession (CleanupExpiredSessions ⟨[("tok6", ⟨"2000000000", "tok6", "Q6", 600,
        ⟨none, false⟩, "pending"⟩)], [⟨"2000000000", "", "pending", 0, none, none⟩]⟩
        601).sessions "tok6" = none ∧
    (GetQRCode ⟨[("tok6", ⟨"2000000000", "tok6", "Q6", 600, ⟨none, false⟩, "pending"⟩)],
        [⟨"2000000000", "", "pending", 0, none, none⟩]⟩ "tok6" 601).1 = .deadlock := by
  have h := c6_sweep_vs_get
    ⟨[("tok6", ⟨"2000000000", "tok6", "Q6", 600, ⟨none, false⟩, "pending"⟩)],
      [⟨"2000000000", "", "pending", 0, none, none⟩]⟩
    "tok6" ⟨"2000000000", "tok6", "Q6", 600, ⟨none, false⟩, "pending"⟩ 601
    (by rfl) (by decide) (by decide)
  exact ⟨h.1, h.2.1, h.2.2.1⟩

/-- **C7**: for every well-formed send request, if the sender phone has no
registered client the handler fails with NotRegistered, and if a client
exists but is not connected it fails with NotConnected; both failures are
reported with HTTP status 400 and leave the message store unchanged. -/
theorem c7_send_failures (clients : List (String × WMClient)) (fileExists : String → Bool)
    (req : SendRequest) (msgs : List StoredMessage)
    (h1 : (req.sender == "") = false)
    (h2 : (req.recipient == "") = false)
    (h3 : (effectiveType req == "text" && req.message == "") = false)
    (h4 : (effectiveType req == "file" && req.fileName == "") = false) :
    (GetUserClient clients req.sender = none →
      HandleSendMessage clients fileExists req msgs = (.notRegistered req.sender, msgs) ∧
      sendResultHTTPStatus (.notRegistered req.sender) = 400) ∧
    (∀ cl, GetUserClient clients req.sender = some cl → cl.connected = false →
      HandleSendMessage clients fileExists req msgs = (.notConnected req.sender, msgs) ∧
      sendResultHTTPStatus (.notConnected req.sender) = 400) := by
  constructor
  · intro hnone
    refine ⟨?_, rfl⟩
    simp only [HandleSendMessage, h1, h2, h3, h4, hnone, Bool.or_self, Bool.false_eq_true,
      if_false]
  · intro cl hsome hconn
    refine ⟨?_, rfl⟩
    simp only [HandleSendMessage, h1, h2, h3, h4, hsome, hconn, Bool.or_self,
      Bool.false_eq_true, if_false, Bool.not_false, if_true]

/-- Witness for C7: an unknown sender 9999999999 and a present-but-disconnected
sender 7000000000, both on a valid text request over the same client map. -/
theorem c7_send_failures_witness :
    HandleSendMessage [("7000000000", ⟨some "dv", false⟩)] (fun _ => false)
        ⟨"9999999999", "8000000000", "hi", "text", ""⟩ []
      = (.notRegistered "9999999999", []) ∧
    HandleSendMessage [("7000000000", ⟨some "dv", false⟩)] (fun _ => false)
        ⟨"7000000000", "8000000000", "hi", "text", ""⟩ []
      = (.notConnected "7000000000", []) ∧
    sendResultHTTPStatus (.notRegistered "9999999999") = 400 ∧
    sendResultHTTPStatus (.notConnected "7000000000") = 400 := by
  have ha := c7_send_failures [("7000000000", ⟨some "dv", false⟩)] (fun _ => false)
    ⟨"9999999999", "8000000000", "hi", "text", ""⟩ [] (by decide) (by decide) (by decide)
    (by decide)
  have hb := c7_send_failures [("7000000000", ⟨some "dv", false⟩)] (fun _ => false)
    ⟨"7000000000", "8000000000", "hi", "text", ""⟩ [] (by decide) (by decide) (by decide)
    (by decide)
  have ha1 := ha.1 (by rfl)
  have hb1 := hb.2 ⟨some "dv", false⟩ (by rfl) (by rfl)
  exact ⟨ha1.1, hb1.1, ha1.2, hb1.2⟩

theorem updateSenderStatus_invalidated_map (snds : List Sender) (p : String) (now : Nat) :
    UpdateSenderStatus snds p "invalidated" now
      = snds.map (fun s => if s.phone == p then
          { s with status := "invalidated", invalidatedAt := some now } else s) := by
  unfold UpdateSenderStatus
  apply List.map_congr_left
  intro s _
  by_cases h : (s.phone == p) = true
  · simp [h]
  · simp [h]

theorem checkConnections_map (clients : List (String × WMClient)) (snds : List Sender)
    (now : Nat) :
    checkConnections clients snds now = snds.map (tickElem clients now) := by
  induction clients generalizing snds with
  | nil =>
    show snds = snds.map (tickElem [] now)
    have hmap : snds.map (tickElem [] now) = snds.map id :=
      List.map_congr_left (fun s _ => rfl)
    rw [hmap, List.map_id]
  | cons pc rest ih =>
    by_cases hconn : pc.2.connected = true
    · have hstep : checkConnections (pc :: rest) snds now = checkConnections rest snds now := by
        simp only [checkConnections, List.foldl_cons, if_pos hconn]
      rw [hstep, ih snds]
      apply List.map_congr_left
      intro s _
      simp [tickElem, List.foldl_cons, hconn]
    · have hcf : pc.2.connected = false := by simpa using hconn
      have hstep : checkConnections (pc :: rest) snds now
          = checkConnections rest (UpdateSenderStatus snds pc.1 "invalidated" now) now := by
        simp only [checkConnections, List.foldl_cons, hcf, Bool.false_eq_true, if_false]
      rw [hstep, ih _, updateSenderStatus_invalidated_map, List.map_map]
      apply List.map_congr_left
      intro s _
      simp [tickElem, List.foldl_cons, hcf, Function.comp]

theorem tickElem_eq (clients : List (String × WMClient)) (now : Nat) (s : Sender) :
    tickElem clients now s
      = if clients.any (fun pc => !pc.2.connected && (s.phone == pc.1)) then
          { s with status := "invalidated", invalidatedAt := some now }
        else s := by
  induction clients generalizing s with
  | nil => rfl
  | cons pc rest ih =>
    by_cases hconn : pc.2.connected = true
    · have hstep : tickElem (pc :: rest) now s = tickElem rest now s := by
        simp [tickElem, List.foldl_cons, hconn]
      rw [hstep, ih]
      have hany : ((pc :: rest).any fun pc2 => !pc2.2.connected && (s.phone == pc2.1))
          = (rest.any fun pc2 => !pc2.2.connected && (s.phone == pc2.1)) := by
        simp [List.any_cons, hconn]
      rw [hany]
    · have hcf : pc.2.connected = false := by simpa using hconn
      by_cases hp : (s.phone == pc.1) = true
      · have hpe : s.phone = pc.1 := by simpa using hp
        have hstep : tickElem (pc :: rest) now s
            = tickElem rest now { s with status := "invalidated", invalidatedAt := some now } := by
          simp [tickElem, List.foldl_cons, hcf, hpe]
        rw [hstep, ih]
        dsimp only
        have hanyc : ((pc :: rest).any fun pc2 => !pc2.2.connected && (s.phone == pc2.1))
            = true := by
          simp [List.any_cons, hcf, hp]
        rw [hanyc, if_pos rfl]
        by_cases hrest : (rest.any fun pc2 => !pc2.2.connected && (s.phone == pc2.1)) = true
        · rw [if_pos hrest]
        · rw [if_neg hrest]
      · have hpb : (s.phone == pc.1) = false := by simpa using hp
        have hpe : ¬(s.phone = pc.1) := by simpa using hpb
        have hstep : tickElem (pc :: rest) now s = tickElem rest now s := by
          simp [tickElem, List.foldl_cons, hcf, hpe]
        rw [hstep, ih]
        have hany : ((pc :: rest).any fun pc2 => !pc2.2.connected && (s.phone == pc2.1))
            = (rest.any fun pc2 => !pc2.2.connected && (s.phone == pc2.1)) := by
          simp [List.any_cons, hcf, hpb]
        rw [hany]

/-- Counterexample to **C8** as stated: with one disconnected client for phone
3000000000, running the supervisor tick at time 100 and again at time 200
(no state change in between) does not leave the directory record identical:
the second tick re-runs the `invalidated` update and overwrites
`invalidated_at` with the second tick's timestamp. -/
theorem c8_counterexample :
    checkConnections [("3000000000", ⟨some "d", false⟩)]
        (checkConnections [("3000000000", ⟨some "d", false⟩)]
          [⟨"3000000000", "d", "authenticated", 0, some 5, none⟩] 100) 200
      ≠ checkConnections [("3000000000", ⟨some "d", false⟩)]
          [⟨"3000000000", "d", "authenticated", 0, some 5, none⟩] 100 := by
  decide

/-- **C8** (amended): running the Connection Supervisor tick twice in a row
with no change to the connection or directory state leaves every Sender
Directory record identical except for the `invalidated_at` timestamp, which
the second tick overwrites on every still-disconnected sender (the update is
re-issued unconditionally); projected onto every other column the second tick
is a no-op, and when the two ticks carry the same timestamp the second tick
changes nothing at all. -/
theorem c8_supervisor_tick_idempotent_up_to_timestamp (clients : List (String × WMClient))
    (senders : List Sender) (n1 n2 : Nat) :
    (checkConnections clients (checkConnections clients senders n1) n2).map senderCore
      = (checkConnections clients senders n1).map senderCore ∧
    checkConnections clients (checkConnections clients senders n1) n1
      = checkConnections clients senders n1 := by
  constructor
  · rw [checkConnections_map clients senders n1,
      checkConnections_map clients (senders.map (tickElem clients n1)) n2]
    simp only [List.map_map]
    apply List.map_congr_left
    intro s _
    simp only [Function.comp]
    rw [tickElem_eq clients n1 s]
    by_cases h : (clients.any fun pc => !pc.2.connected && (s.phone == pc.1)) = true
    · rw [if_pos h, tickElem_eq]
      dsimp only
      rw [if_pos h]
      rfl
    · rw [if_neg h, tickElem_eq]
      rw [if_neg h]
  · rw [checkConnections_map clients senders n1,
      checkConnections_map clients (senders.map (tickElem clients n1)) n1]
    simp only [List.map_map]
    apply List.map_congr_left
    intro s _
    simp only [Function.comp]
    rw [tickElem_eq clients n1 s]
    by_cases h : (clients.any fun pc => !pc.2.connected && (s.phone == pc.1)) = true
    · rw [if_pos h, tickElem_eq]
      dsimp only
      rw [if_pos h]
    · rw [if_neg h, tickElem_eq]
      rw [if_neg h]

/-- Counterexample to **C9** as stated: two configurations that differ in the
`connection_check_interval` field (the only period-related configuration key
that exists) still yield the same hard-wired supervisor tick of 1 minute, and
the QR TTL and sweep interval are equally insensitive to configuration — so
none of the three periods is operator-configurable. -/
theorem c9_counterexample :
    (⟨"localhost", "whatsapp_automation", "sa", "pw", ":8080", 1⟩ : Config)
        ≠ (⟨"localhost", "whatsapp_automation", "sa", "pw", ":8080", 7⟩ : Config) ∧
    monitorConnectionsTickMinutes ⟨"localhost", "whatsapp_automation", "sa", "pw", ":8080", 1⟩
      = monitorConnectionsTickMinutes
          ⟨"localhost", "whatsapp_automation", "sa", "pw", ":8080", 7⟩ ∧
    mainQRExpiryMinutes ⟨"localhost", "whatsapp_automation", "sa", "pw", ":8080", 1⟩
      = mainQRExpiryMinutes ⟨"localhost", "whatsapp_automation", "sa", "pw", ":8080", 7⟩ ∧
    startCleanupIntervalMinutes ⟨"localhost", "whatsapp_automation", "sa", "pw", ":8080", 1⟩
      = startCleanupIntervalMinutes
          ⟨"localhost", "whatsapp_automation", "sa", "pw", ":8080", 7⟩ := by
  refine ⟨?_, rfl, rfl, rfl⟩
  intro h
  have := congrArg Config.connectionCheckInterval h
  simp at this

/-- **C9** (amended): the QR session TTL is 10 minutes, the sweep interval is
5 minutes, and the supervisor tick is 1 minute, but all three are hard-coded
constants: they take the same value under every operator configuration
(`main.go` fixes `qrExpiryMinutes := 10`; `StartCleanup` and
`MonitorConnections` use fixed tickers and ignore the configuration,
including its `ConnectionCheckInterval` field). -/
theorem c9_fixed_periods (cfg cfg' : Config) :
    mainQRExpiryMinutes cfg = 10 ∧
    startCleanupIntervalMinutes cfg = 5 ∧
    monitorConnectionsTickMinutes cfg = 1 ∧
    mainQRExpiryMinutes cfg = mainQRExpiryMinutes cfg' ∧
    startCleanupIntervalMinutes cfg = startCleanupIntervalMinutes cfg' ∧
    monitorConnectionsTickMinutes cfg = monitorConnectionsTickMinutes cfg' :=
  ⟨rfl, rfl, rfl, rfl, rfl, rfl⟩

/-- Counterexample to **C10** as stated: before the sweep, a `get` of the
concrete expired token serves no response at all — it self-deadlocks in the
lazy-expiry branch — so there is no window in which the Expired/NotFound
distinction is observable. -/
theorem c10_counterexample :
    (GetQRCode ⟨[("tokX", ⟨"2000000000", "tokX", "QX", 600, ⟨none, false⟩, "pending"⟩)],
        [⟨"2000000000", "", "pending", 0, none, none⟩]⟩ "tokX" 601).1 = .deadlock ∧
    GetQRResult.deadlock ≠ GetQRResult.notFound := by
  refine ⟨rfl, by decide⟩

/-- **C10** (amended): after the periodic sweep has removed an expired
session from the table, a `get` of the former token fails with NotFound,
which the handler renders as 404. Before the sweep, the same `get` does not
fail with Expired: it self-deadlocks in the lazy-expiry branch and serves
nothing, so the Expired(410)-versus-NotFound(404) distinction is never
actually observable for an expired token — 404 is the only failure ever
served for it, and only after the sweep. -/
theorem c10_notFound_after_sweep (st : QMState) (token : String) (s : QRCodeSession)
    (now : Nat)
    (hs : lookupSession st.sessions token = some s)
    (hexp : s.expiresAt < now)
    (hall : ∀ ts ∈ st.sessions, ts.1 = token → ts.2.expiresAt < now) :
    (GetQRCode (CleanupExpiredSessions st now) token now).1 = .notFound ∧
    handleGetQRCodeErrorStatus .notFound = 404 ∧
    (GetQRCode st token now).1 = .deadlock := by
  have hnone : lookupSession (CleanupExpiredSessions st now).sessions token = none := by
    apply lookupSession_filter_none_of_all
    intro ts hmem ht
    have hlt := hall ts hmem ht
    simp [hlt]
  refine ⟨?_, rfl, ?_⟩
  · simp only [GetQRCode, hnone]
  · simp only [GetQRCode, hs, if_pos hexp]

/-- Witness for the amended C10 at the concrete expired-session state. -/
theorem c10_notFound_after_sweep_witness :
    (GetQRCode (CleanupExpiredSessions ⟨[("tokX", ⟨"2000000000", "tokX", "QX", 600,
        ⟨none, false⟩, "pending"⟩)], [⟨"2000000000", "", "pending", 0, none, none⟩]⟩ 601)
        "tokX" 601).1 = .notFound ∧
    (GetQRCode ⟨[("tokX", ⟨"2000000000", "tokX", "QX", 600, ⟨none, false⟩, "pending"⟩)],
        [⟨"2000000000", "", "pending", 0, none, none⟩]⟩ "tokX" 601).1 = .deadlock := by
  have h := c10_notFound_after_sweep
    ⟨[("tokX", ⟨"2000000000", "tokX", "QX", 600, ⟨none, false⟩, "pending"⟩)],
      [⟨"2000000000", "", "pending", 0, none, none⟩]⟩
    "tokX" ⟨"2000000000", "tokX", "QX", 600, ⟨none, false⟩, "pending"⟩ 601
    (by rfl) (by decide) (by decide)
  exact ⟨h.1, h.2.2⟩
